import Mathlib

/-!
Shallow embedding of `Sources/Core/PreMain/DPPreMainMonitor.c` from the
iOS-DebugProbe repository.

Machine integers (`uint64_t`) are modelled as `Nat` with explicit `% 2^64`
where C overflow/wraparound can matter; `double` is modelled as `ℚ` (exact
arithmetic, matching the spec's "up to floating-point rounding" reading);
C strings are `List Char` (NUL-free contents up to the terminator); a
nullable pointer argument is `Option`/`Bool`.

The C globals (`g_preMainData`, `g_dylibLoadInfos`, `g_dylibIndex`) are
gathered into an explicit `MonitorState` that every operation threads.
OS inputs (`mach_absolute_time`, `gettimeofday`, `mach_timebase_info`,
`dladdr` results) are passed as explicit parameters, and the ledger
capacity `DP_MAX_DYLIB_COUNT` is a parameter `cap` so the spec's
capacity-2 scenario can be instantiated; the real constant is 512.
The lazy timebase initialization in `DPMachTimeToNanos` is modelled by the
hypothesis `0 < timebaseDenom` (an initialized basis) in the theorems.
-/

/-- 2^64, the modulus of C `uint64_t` arithmetic. -/
def u64Mod : Nat := 2 ^ 64

/-- C `uint64_t` subtraction `a - b` (both operands already reduced mod 2^64). -/
def sub64 (a b : Nat) : Nat := (a + u64Mod - b % u64Mod) % u64Mod

/-- C `uint64_t` multiplication `a * b` (both operands already reduced mod 2^64). -/
def mul64 (a b : Nat) : Nat := a * b % u64Mod

/-- `#define DP_MAX_DYLIB_COUNT 512` -/
def DP_MAX_DYLIB_COUNT : Nat := 512

/-- `#define DP_MAX_DYLIB_NAME_LENGTH 256` -/
def DP_MAX_DYLIB_NAME_LENGTH : Nat := 256

/-- C struct `DPDylibLoadInfo`. `name` is the stored C string's contents
(characters before the NUL terminator of the 256-byte buffer). -/
structure DPDylibLoadInfo where
  name : List Char
  loadMachTime : Nat
  loadDurationNanos : Nat
  isSystemLibrary : Bool
  slide : Int
deriving DecidableEq, Repr

/-- C struct `DPPreMainTimestamps` (all `uint64_t`, 0 = unset). -/
structure DPPreMainTimestamps where
  processStartTimeUnixMicros : Nat
  constructorMachTime : Nat
  firstDyldCallbackMachTime : Nat
  lastDyldCallbackMachTime : Nat
  mainExecutedMachTime : Nat
  objcLoadStartMachTime : Nat
  objcLoadEndMachTime : Nat
deriving DecidableEq, Repr

/-- C struct `DPPreMainDurations` (C `double` fields modelled as `ℚ`). -/
structure DPPreMainDurations where
  totalPreMainMs : ℚ
  dylibLoadingMs : ℚ
  objcLoadMs : ℚ
  staticInitializerMs : ℚ
  postDyldToMainMs : ℚ
  estimatedKernelToConstructorMs : ℚ
deriving DecidableEq, Repr

/-- C struct `DPPreMainData`. -/
structure DPPreMainData where
  timestamps : DPPreMainTimestamps
  durations : DPPreMainDurations
  dylibCount : Nat
  systemDylibCount : Nat
  userDylibCount : Nat
  mainExecutedMarked : Bool
  dylibDetailEnabled : Bool
  timebaseNumer : Nat
  timebaseDenom : Nat
deriving DecidableEq, Repr

/-- The zero-initialized `DPPreMainTimestamps` (`static ... = {0}`). -/
def zeroTimestamps : DPPreMainTimestamps :=
  { processStartTimeUnixMicros := 0, constructorMachTime := 0
    firstDyldCallbackMachTime := 0, lastDyldCallbackMachTime := 0
    mainExecutedMachTime := 0, objcLoadStartMachTime := 0, objcLoadEndMachTime := 0 }

/-- The zero-initialized `DPPreMainDurations`. -/
def zeroDurations : DPPreMainDurations :=
  { totalPreMainMs := 0, dylibLoadingMs := 0, objcLoadMs := 0
    staticInitializerMs := 0, postDyldToMainMs := 0, estimatedKernelToConstructorMs := 0 }

/-- The zero-initialized `DPDylibLoadInfo` (a zeroed ledger slot: its C string
is empty since byte 0 is NUL). -/
def zeroDylibInfo : DPDylibLoadInfo :=
  { name := [], loadMachTime := 0, loadDurationNanos := 0
    isSystemLibrary := false, slide := 0 }

/-- The zero-initialized `DPPreMainData` (`static DPPreMainData g_preMainData = {0}`). -/
def zeroData : DPPreMainData :=
  { timestamps := zeroTimestamps, durations := zeroDurations
    dylibCount := 0, systemDylibCount := 0, userDylibCount := 0
    mainExecutedMarked := false, dylibDetailEnabled := false
    timebaseNumer := 0, timebaseDenom := 0 }

/-- The global mutable state of `DPPreMainMonitor.c`: `g_preMainData`,
`g_dylibLoadInfos` (a fixed array of `cap` slots, kept as a list of length
`cap`) and the atomic cursor `g_dylibIndex`. -/
structure MonitorState where
  preMainData : DPPreMainData
  dylibLoadInfos : List DPDylibLoadInfo
  dylibIndex : Nat
deriving DecidableEq, Repr

/-- `DPMachTimeToNanos`: `machTime * g_preMainData.timebaseNumer /
g_preMainData.timebaseDenom`, the product taken in `uint64_t` (mod 2^64).
The lazy `dp_initialize_timebase` call is modelled by the hypothesis
`0 < timebaseDenom` in the theorems (an initialized basis). -/
def DPMachTimeToNanos (d : DPPreMainData) (machTime : Nat) : Nat :=
  mul64 machTime d.timebaseNumer / d.timebaseDenom

/-- `DPMachTimeToMillis`: `(double)DPMachTimeToNanos(machTime) / 1000000.0`. -/
def DPMachTimeToMillis (d : DPPreMainData) (machTime : Nat) : ℚ :=
  (DPMachTimeToNanos d machTime : ℚ) / 1000000

/-- `dp_extract_filename`: `strrchr(path, '/')` then the suffix after the
last slash, the whole path when it has no slash, `"unknown"` for NULL. -/
def dp_extract_filename : Option (List Char) → List Char
  | none => "unknown".data
  | some path =>
    if path.contains '/' then (path.reverse.takeWhile (fun c => c ≠ '/')).reverse
    else path

/-- The `systemPrefixes` table of `dp_is_system_library`. -/
def systemPrefixes : List (List Char) :=
  ["/usr/lib/".data, "/System/".data, "/Library/Apple/".data,
   "/private/var/db/dyld/".data, "/AppleInternal/".data]

/-- `dp_is_system_library`: first prefix match wins (`strncmp(path, pre,
strlen(pre)) == 0`, i.e. the first `strlen(pre)` characters of `path` equal
`pre`); NULL path is non-system. -/
def dp_is_system_library : Option (List Char) → Bool
  | none => false
  | some path => systemPrefixes.any (fun pre => path.take pre.length == pre)

/-- `dp_dyld_image_added_callback`. `currentMachTime` is the
`mach_absolute_time()` read at entry; `imagePath` is the `dladdr` result
(`none` when the lookup fails or yields a NULL `dli_fname`). -/
def dp_dyld_image_added_callback (cap : Nat) (s : MonitorState)
    (currentMachTime : Nat) (imagePath : Option (List Char)) (slide : Int) :
    MonitorState :=
  let ts := s.preMainData.timestamps
  let ts :=
    if ts.firstDyldCallbackMachTime = 0 then
      { ts with firstDyldCallbackMachTime := currentMachTime }
    else ts
  let ts := { ts with lastDyldCallbackMachTime := currentMachTime }
  let s := { s with preMainData := { s.preMainData with timestamps := ts } }
  if s.preMainData.dylibDetailEnabled = false then
    { s with dylibIndex := s.dylibIndex + 1 }
  else
    let index := s.dylibIndex
    let s := { s with dylibIndex := index + 1 }
    if cap ≤ index then s
    else
      let loadDurationNanos :=
        if 0 < s.preMainData.timestamps.constructorMachTime then
          DPMachTimeToNanos s.preMainData
            (sub64 currentMachTime s.preMainData.timestamps.constructorMachTime)
        else 0
      let nameAndSys : List Char × Bool :=
        match imagePath with
        | some _ =>
          ((dp_extract_filename imagePath).take (DP_MAX_DYLIB_NAME_LENGTH - 1),
           dp_is_system_library imagePath)
        | none => (("unknown".data).take (DP_MAX_DYLIB_NAME_LENGTH - 1), false)
      let info : DPDylibLoadInfo :=
        { name := nameAndSys.1, loadMachTime := currentMachTime
          loadDurationNanos := loadDurationNanos
          isSystemLibrary := nameAndSys.2, slide := slide }
      let s := { s with dylibLoadInfos := s.dylibLoadInfos.set index info }
      { s with preMainData :=
          { s.preMainData with
            dylibCount := index + 1
            systemDylibCount :=
              s.preMainData.systemDylibCount + (if info.isSystemLibrary then 1 else 0)
            userDylibCount :=
              s.preMainData.userDylibCount + (if info.isSystemLibrary then 0 else 1) } }

/-- `dp_calculate_durations`. The two wall/monotonic "now" reads inside the
kernel-estimate branch (`gettimeofday`, `mach_absolute_time`) are the
parameters `nowUnixMicros` and `nowMach`. Returns the updated `durations`
struct (the C function mutates `g_preMainData.durations` in place). -/
def dp_calculate_durations (d : DPPreMainData) (nowUnixMicros nowMach : Nat) :
    DPPreMainDurations :=
  let ts := d.timestamps
  if d.mainExecutedMarked = false ∨ ts.mainExecutedMachTime = 0 then d.durations
  else
    let dur := d.durations
    let dur :=
      if 0 < ts.constructorMachTime then
        { dur with totalPreMainMs :=
            DPMachTimeToMillis d (sub64 ts.mainExecutedMachTime ts.constructorMachTime) }
      else dur
    let dur :=
      if 0 < ts.firstDyldCallbackMachTime ∧ 0 < ts.lastDyldCallbackMachTime then
        { dur with dylibLoadingMs :=
            DPMachTimeToMillis d (sub64 ts.lastDyldCallbackMachTime ts.firstDyldCallbackMachTime) }
      else dur
    let dur :=
      if 0 < ts.objcLoadStartMachTime ∧ 0 < ts.objcLoadEndMachTime then
        { dur with objcLoadMs :=
            DPMachTimeToMillis d (sub64 ts.objcLoadEndMachTime ts.objcLoadStartMachTime) }
      else dur
    let dur :=
      if 0 < ts.constructorMachTime ∧ 0 < ts.firstDyldCallbackMachTime then
        { dur with staticInitializerMs :=
            DPMachTimeToMillis d (sub64 ts.firstDyldCallbackMachTime ts.constructorMachTime) }
      else dur
    let dur :=
      if 0 < ts.lastDyldCallbackMachTime then
        { dur with postDyldToMainMs :=
            DPMachTimeToMillis d (sub64 ts.mainExecutedMachTime ts.lastDyldCallbackMachTime) }
      else dur
    let dur :=
      if 0 < ts.processStartTimeUnixMicros then
        let totalSinceStartMs : ℚ :=
          ((sub64 nowUnixMicros ts.processStartTimeUnixMicros : Nat) : ℚ) / 1000
        let constructorToNowNanos :=
          DPMachTimeToNanos d (sub64 nowMach ts.constructorMachTime)
        let constructorToNowMs : ℚ := (constructorToNowNanos : ℚ) / 1000000
        let est := totalSinceStartMs - constructorToNowMs
        { dur with estimatedKernelToConstructorMs := if est < 0 then 0 else est }
      else dur
    dur

/-- `dp_premain_init` acting on the zeroed initial globals: stores the OS
timebase, the constructor tick and the process start time, and enables
detail recording. The ledger starts as `cap` zeroed slots. -/
def dp_premain_init (cap numer denom constructorTime processStartMicros : Nat) :
    MonitorState :=
  { preMainData :=
      { zeroData with
        timebaseNumer := numer, timebaseDenom := denom
        timestamps :=
          { zeroTimestamps with
            constructorMachTime := constructorTime
            processStartTimeUnixMicros := processStartMicros }
        dylibDetailEnabled := true }
    dylibLoadInfos := List.replicate cap zeroDylibInfo
    dylibIndex := 0 }

/-- `DPPreMainMarkMainExecuted`. `mainMachTime` is the
`mach_absolute_time()` read at entry; `nowUnixMicros`/`nowMach` feed the
duration calculator's kernel-estimate branch. -/
def DPPreMainMarkMainExecuted (s : MonitorState)
    (mainMachTime nowUnixMicros nowMach : Nat) : MonitorState :=
  if s.preMainData.mainExecutedMarked = true then s
  else
    let d :=
      { s.preMainData with
        timestamps :=
          { s.preMainData.timestamps with mainExecutedMachTime := mainMachTime }
        mainExecutedMarked := true }
    { s with preMainData :=
        { d with durations := dp_calculate_durations d nowUnixMicros nowMach } }

/-- `DPPreMainMarkObjCLoadStart`. -/
def DPPreMainMarkObjCLoadStart (s : MonitorState) (t : Nat) : MonitorState :=
  if s.preMainData.timestamps.objcLoadStartMachTime = 0 then
    { s with preMainData :=
        { s.preMainData with timestamps :=
            { s.preMainData.timestamps with objcLoadStartMachTime := t } } }
  else s

/-- `DPPreMainMarkObjCLoadEnd`. -/
def DPPreMainMarkObjCLoadEnd (s : MonitorState) (t : Nat) : MonitorState :=
  if s.preMainData.timestamps.objcLoadEndMachTime = 0 then
    { s with preMainData :=
        { s.preMainData with timestamps :=
            { s.preMainData.timestamps with objcLoadEndMachTime := t } } }
  else s

/-- `DPPreMainGetDylibInfo`: NULL for an out-of-range index. -/
def DPPreMainGetDylibInfo (cap : Nat) (s : MonitorState) (index : Nat) :
    Option DPDylibLoadInfo :=
  if s.preMainData.dylibCount ≤ index ∨ cap ≤ index then none
  else s.dylibLoadInfos.get? index

/-- `DPPreMainGetAllDylibs`: the records copied into the caller's buffer
(`bufferNonNull = false` models a NULL `outBuffer`); the returned count is
the list's length. -/
def DPPreMainGetAllDylibs (cap : Nat) (s : MonitorState)
    (bufferNonNull : Bool) (bufferSize : Nat) : List DPDylibLoadInfo :=
  if bufferNonNull = false ∨ bufferSize = 0 then []
  else
    let count := s.preMainData.dylibCount
    let count := if bufferSize < count then bufferSize else count
    let count := if cap < count then cap else count
    s.dylibLoadInfos.take count

/-- The ordering induced by `dp_compare_dylib_by_duration`: `a` sorts before
`b` exactly when the comparator does not return 1, i.e. descending by
`loadDurationNanos`. -/
def dp_duration_ge (a b : DPDylibLoadInfo) : Prop :=
  b.loadDurationNanos ≤ a.loadDurationNanos

instance : DecidableRel dp_duration_ge := fun a b =>
  Nat.decLe b.loadDurationNanos a.loadDurationNanos

instance : IsTotal DPDylibLoadInfo dp_duration_ge :=
  ⟨fun a b => Or.symm (Nat.le_total a.loadDurationNanos b.loadDurationNanos)⟩

instance : IsTrans DPDylibLoadInfo dp_duration_ge :=
  ⟨fun _ _ _ hab hbc => Nat.le_trans hbc hab⟩

/-- `DPPreMainGetSlowestDylibs`: snapshot-copy the first `totalCount` ledger
slots, sort them descending by `loadDurationNanos` (the `qsort` with
`dp_compare_dylib_by_duration`), and return the first
`min(count, totalCount)` (malloc assumed to succeed). -/
def DPPreMainGetSlowestDylibs (cap : Nat) (s : MonitorState)
    (bufferNonNull : Bool) (count : Nat) : List DPDylibLoadInfo :=
  if bufferNonNull = false ∨ count = 0 then []
  else
    let totalCount :=
      if cap < s.preMainData.dylibCount then cap else s.preMainData.dylibCount
    let tempBuffer := s.dylibLoadInfos.take totalCount
    let sorted := List.insertionSort dp_duration_ge tempBuffer
    sorted.take (if count < totalCount then count else totalCount)

/-- `DPPreMainSetDylibDetailEnabled`. -/
def DPPreMainSetDylibDetailEnabled (s : MonitorState) (enabled : Bool) :
    MonitorState :=
  { s with preMainData := { s.preMainData with dylibDetailEnabled := enabled } }

/-- `DPPreMainReset`: memset both globals to zero, reset the cursor,
re-enable detail recording and re-derive the timebase from the OS
(`numer`/`denom` are the fresh `mach_timebase_info` values). -/
def DPPreMainReset (cap numer denom : Nat) (_s : MonitorState) : MonitorState :=
  { preMainData :=
      { zeroData with
        dylibDetailEnabled := true
        timebaseNumer := numer, timebaseDenom := denom }
    dylibLoadInfos := List.replicate cap zeroDylibInfo
    dylibIndex := 0 }

/-- The externally triggerable events of the monitor, carrying the OS inputs
each C entry point reads. -/
inductive DPEvent where
  | load (time : Nat) (imagePath : Option (List Char)) (slide : Int)
  | setDetail (enabled : Bool)
  | markMain (time nowUnixMicros nowMach : Nat)
  | markObjCStart (time : Nat)
  | markObjCEnd (time : Nat)
deriving DecidableEq, Repr

/-- One event step of the monitor. -/
def dp_step (cap : Nat) (s : MonitorState) : DPEvent → MonitorState
  | .load t p sl => dp_dyld_image_added_callback cap s t p sl
  | .setDetail b => DPPreMainSetDylibDetailEnabled s b
  | .markMain t u m => DPPreMainMarkMainExecuted s t u m
  | .markObjCStart t => DPPreMainMarkObjCLoadStart s t
  | .markObjCEnd t => DPPreMainMarkObjCLoadEnd s t

/-- Run a sequence of events. -/
def dp_run (cap : Nat) (s : MonitorState) (es : List DPEvent) : MonitorState :=
  es.foldl (dp_step cap) s

/-! ## Claim C5: tick-to-nanos conversion -/

/-- A data record with an initialized timebase of 3 ticks-to-nanos ratio
(numerator 3, denominator 1), used to exhibit 64-bit wraparound. -/
def c5Data : DPPreMainData := { zeroData with timebaseNumer := 3, timebaseDenom := 1 }

/-- C5 counterexample: with the initialized timebase numerator 3 and
denominator 1, `DPMachTimeToNanos` applied to the tick `2^63` differs from
the exact mathematical value `(2^63 × 3) / 1`, because the C multiplication
`machTime * timebaseNumer` is performed in `uint64_t` and wraps around. -/
theorem C5_counterexample :
    0 < c5Data.timebaseDenom ∧
    DPMachTimeToNanos c5Data (2 ^ 63) ≠
      2 ^ 63 * c5Data.timebaseNumer / c5Data.timebaseDenom := by
  decide

/-- C5 (amended): for every tick `t` and initialized timebase
(denominator > 0), `DPMachTimeToNanos t` equals the exact value
`(t × numerator) / denominator` provided the 64-bit product does not wrap,
i.e. `t × numerator < 2^64`; the multiplication is NOT widened, so the
result is in general `((t × numerator) mod 2^64) / denominator`. -/
theorem C5_machTimeToNanos_exact (d : DPPreMainData) (t : Nat)
    (_hden : 0 < d.timebaseDenom)
    (hw : t * d.timebaseNumer < u64Mod) :
    DPMachTimeToNanos d t = t * d.timebaseNumer / d.timebaseDenom := by
  unfold DPMachTimeToNanos mul64
  rw [Nat.mod_eq_of_lt hw]

/-- Witness for C5: the amended theorem evaluated at tick 7 over the
timebase 3/1. -/
theorem C5_machTimeToNanos_exact_witness :
    DPMachTimeToNanos c5Data 7 = 7 * c5Data.timebaseNumer / c5Data.timebaseDenom :=
  C5_machTimeToNanos_exact c5Data 7 (by decide) (by decide)

/-! ## Claim C6: marking main twice is a no-op -/

/-- C6: calling `DPPreMainMarkMainExecuted` a second time, from any state
in which it has already been called once (with arbitrary OS time readings
on both calls), leaves the entire monitor state — in particular
`mainExecutedMachTime`, `mainExecutedMarked` and every computed duration
field — identical to the state after the first call. -/
theorem C6_markMainExecuted_idempotent (s : MonitorState)
    (t1 u1 m1 t2 u2 m2 : Nat) :
    DPPreMainMarkMainExecuted (DPPreMainMarkMainExecuted s t1 u1 m1) t2 u2 m2 =
      DPPreMainMarkMainExecuted s t1 u1 m1 := by
  unfold DPPreMainMarkMainExecuted
  by_cases h : s.preMainData.mainExecutedMarked = true
  · simp [h]
  · simp [h]

/-! ## Claim C2: events beyond the ledger capacity -/

/-- Run a sequence of events from a freshly initialized monitor. -/
def dp_runFromInit (cap numer denom constructorTime processStartMicros : Nat)
    (es : List DPEvent) : MonitorState :=
  dp_run cap (dp_premain_init cap numer denom constructorTime processStartMicros) es

/-- The monitor state after three load events on a capacity-2 ledger. -/
def c2State : MonitorState :=
  dp_runFromInit 2 1 1 10 0
    [DPEvent.load 20 none 0, DPEvent.load 30 none 0, DPEvent.load 40 none 0]

/-- C2 counterexample: with capacity 2 and detail recording enabled, after 3
load events `getAll` does return 2 records, but `dylibCount` is 2, not 3 —
the overflow event returns before the counter-update block, so the
aggregate counters are NOT updated. -/
theorem C2_counterexample :
    (DPPreMainGetAllDylibs 2 c2State true 100).length = 2 ∧
    c2State.preMainData.dylibCount ≠ 3 := by
  decide

/-- C2 (amended): an event arriving after the ledger capacity is exhausted
(write-cursor at or past `cap`, detail recording enabled) still updates the
first/last-load phase timestamps and advances the write-cursor, but leaves
the aggregate counters (`dylibCount`, `systemDylibCount`, `userDylibCount`)
and the ledger unchanged; in the capacity-2, 3-event scenario `getAll`
returns 2 records and `dylibCount == 2`. -/
theorem C2_overflow_event (cap : Nat) (s : MonitorState) (t : Nat)
    (p : Option (List Char)) (sl : Int)
    (hEn : s.preMainData.dylibDetailEnabled = true)
    (hIdx : cap ≤ s.dylibIndex) :
    (dp_dyld_image_added_callback cap s t p sl).preMainData.timestamps.lastDyldCallbackMachTime
        = t ∧
    (dp_dyld_image_added_callback cap s t p sl).preMainData.timestamps.firstDyldCallbackMachTime
        = (if s.preMainData.timestamps.firstDyldCallbackMachTime = 0 then t
           else s.preMainData.timestamps.firstDyldCallbackMachTime) ∧
    (dp_dyld_image_added_callback cap s t p sl).dylibIndex = s.dylibIndex + 1 ∧
    (dp_dyld_image_added_callback cap s t p sl).preMainData.dylibCount
        = s.preMainData.dylibCount ∧
    (dp_dyld_image_added_callback cap s t p sl).preMainData.systemDylibCount
        = s.preMainData.systemDylibCount ∧
    (dp_dyld_image_added_callback cap s t p sl).preMainData.userDylibCount
        = s.preMainData.userDylibCount ∧
    (dp_dyld_image_added_callback cap s t p sl).dylibLoadInfos = s.dylibLoadInfos ∧
    (DPPreMainGetAllDylibs 2 c2State true 100).length = 2 ∧
    c2State.preMainData.dylibCount = 2 := by
  unfold dp_dyld_image_added_callback
  by_cases h0 : s.preMainData.timestamps.firstDyldCallbackMachTime = 0 <;>
    simp [hEn, h0, hIdx] <;> decide

/-- Witness for C2: the amended theorem applied to the capacity-2 state
after three load events (cursor 3 ≥ capacity 2): a fourth event leaves
`dylibCount` unchanged. -/
theorem C2_overflow_event_witness :
    (dp_dyld_image_added_callback 2 c2State 50 none 0).preMainData.dylibCount
      = c2State.preMainData.dylibCount :=
  (C2_overflow_event 2 c2State 50 none 0 (by decide) (by decide)).2.2.2.1

/-! ## Claim C3: detail recording disabled before any event -/

/-- Wrap raw load-event data (time, dladdr path, slide) as events. -/
def dp_loadEvents (loads : List (Nat × Option (List Char) × Int)) : List DPEvent :=
  loads.map (fun l => DPEvent.load l.1 l.2.1 l.2.2)

/-- With detail recording disabled, the dyld callback only updates the
first/last timestamps and advances the write-cursor. -/
theorem callback_disabled (cap : Nat) (s : MonitorState) (t : Nat)
    (p : Option (List Char)) (sl : Int)
    (h : s.preMainData.dylibDetailEnabled = false) :
    (dp_dyld_image_added_callback cap s t p sl).preMainData.dylibDetailEnabled = false ∧
    (dp_dyld_image_added_callback cap s t p sl).preMainData.dylibCount
        = s.preMainData.dylibCount ∧
    (dp_dyld_image_added_callback cap s t p sl).preMainData.systemDylibCount
        = s.preMainData.systemDylibCount ∧
    (dp_dyld_image_added_callback cap s t p sl).preMainData.userDylibCount
        = s.preMainData.userDylibCount ∧
    (dp_dyld_image_added_callback cap s t p sl).dylibIndex = s.dylibIndex + 1 ∧
    (dp_dyld_image_added_callback cap s t p sl).dylibLoadInfos = s.dylibLoadInfos := by
  unfold dp_dyld_image_added_callback
  by_cases h0 : s.preMainData.timestamps.firstDyldCallbackMachTime = 0 <;> simp [h, h0]

/-- Running any list of load events from a detail-disabled state leaves the
counters and the ledger unchanged and advances the cursor by the number of
events. -/
theorem run_loads_disabled (cap : Nat)
    (loads : List (Nat × Option (List Char) × Int)) (s : MonitorState)
    (h : s.preMainData.dylibDetailEnabled = false) :
    (dp_run cap s (dp_loadEvents loads)).preMainData.dylibDetailEnabled = false ∧
    (dp_run cap s (dp_loadEvents loads)).preMainData.dylibCount
        = s.preMainData.dylibCount ∧
    (dp_run cap s (dp_loadEvents loads)).dylibIndex = s.dylibIndex + loads.length ∧
    (dp_run cap s (dp_loadEvents loads)).dylibLoadInfos = s.dylibLoadInfos := by
  induction loads generalizing s with
  | nil => simpa [dp_run, dp_loadEvents] using h
  | cons l rest ih =>
    have hcb := callback_disabled cap s l.1 l.2.1 l.2.2 h
    have hstep : dp_run cap s (dp_loadEvents (l :: rest)) =
        dp_run cap (dp_dyld_image_added_callback cap s l.1 l.2.1 l.2.2)
          (dp_loadEvents rest) := by
      simp [dp_run, dp_loadEvents, dp_step]
    have ih' := ih (dp_dyld_image_added_callback cap s l.1 l.2.1 l.2.2) hcb.1
    rw [hstep]
    refine ⟨ih'.1, ?_, ?_, ?_⟩
    · rw [ih'.2.1, hcb.2.1]
    · rw [ih'.2.2.1, hcb.2.2.2.2.1]; simp; omega
    · rw [ih'.2.2.2, hcb.2.2.2.2.2]

/-- C3 counterexample: detail recording disabled before the first event,
one load event delivered — `getAll` returns 0 records (as claimed), but
the snapshot's `dylibCount` is 0, not 1: the delivered event is counted
only by the internal write-cursor, which is not observable. -/
theorem C3_counterexample :
    (dp_runFromInit 512 1 1 10 0
        [DPEvent.setDetail false, DPEvent.load 20 none 0]).preMainData.dylibCount ≠ 1 := by
  decide

/-- C3 (amended): for every sequence of N load events delivered after
detail recording was disabled (before the first event),
`DPPreMainGetAllDylibs` returns 0 records and the snapshot's `dylibCount`
remains 0; the N delivered events are reflected only in the internal
write-cursor (`g_dylibIndex = N`), not in the observable counter. -/
theorem C3_disabled_counts (cap numer denom c ps : Nat)
    (loads : List (Nat × Option (List Char) × Int))
    (bufferNonNull : Bool) (bufferSize : Nat) :
    DPPreMainGetAllDylibs cap
        (dp_runFromInit cap numer denom c ps
          (DPEvent.setDetail false :: dp_loadEvents loads)) bufferNonNull bufferSize
      = [] ∧
    (dp_runFromInit cap numer denom c ps
        (DPEvent.setDetail false :: dp_loadEvents loads)).preMainData.dylibCount = 0 ∧
    (dp_runFromInit cap numer denom c ps
        (DPEvent.setDetail false :: dp_loadEvents loads)).dylibIndex = loads.length := by
  have hstep : dp_runFromInit cap numer denom c ps
      (DPEvent.setDetail false :: dp_loadEvents loads) =
      dp_run cap
        (DPPreMainSetDylibDetailEnabled (dp_premain_init cap numer denom c ps) false)
        (dp_loadEvents loads) := by
    simp [dp_runFromInit, dp_run, dp_step]
  have hdis : (DPPreMainSetDylibDetailEnabled
      (dp_premain_init cap numer denom c ps) false).preMainData.dylibDetailEnabled
      = false := by
    simp [DPPreMainSetDylibDetailEnabled]
  have hrun := run_loads_disabled cap loads
    (DPPreMainSetDylibDetailEnabled (dp_premain_init cap numer denom c ps) false) hdis
  have hcount : (dp_runFromInit cap numer denom c ps
      (DPEvent.setDetail false :: dp_loadEvents loads)).preMainData.dylibCount = 0 := by
    rw [hstep, hrun.2.1]
    simp [DPPreMainSetDylibDetailEnabled, dp_premain_init, zeroData]
  refine ⟨?_, hcount, ?_⟩
  · unfold DPPreMainGetAllDylibs
    by_cases hb : bufferNonNull = false ∨ bufferSize = 0
    · simp [hb]
    · simp only [if_neg hb, hcount]
      simp
  · rw [hstep, hrun.2.2.1]
    simp [DPPreMainSetDylibDetailEnabled, dp_premain_init]

/-! ## Claim C4: counter consistency and system-library classification -/

/-- The counter invariant maintained while detail recording stays enabled:
the published `dylibCount` tracks the clamped write-cursor and the
system/user split partitions it. -/
def countersConsistent (cap : Nat) (s : MonitorState) : Prop :=
  s.preMainData.systemDylibCount + s.preMainData.userDylibCount
      = s.preMainData.dylibCount ∧
  s.preMainData.dylibCount = min s.dylibIndex cap ∧
  s.preMainData.dylibDetailEnabled = true

/-- With detail recording enabled, the dyld callback advances the cursor
and either leaves the counters untouched (cursor at or past capacity) or
publishes `dylibCount = index + 1` and one more system-or-user record. -/
theorem callback_enabled_counters (cap : Nat) (s : MonitorState) (t : Nat)
    (p : Option (List Char)) (sl : Int)
    (hEn : s.preMainData.dylibDetailEnabled = true) :
    (dp_dyld_image_added_callback cap s t p sl).preMainData.dylibDetailEnabled = true ∧
    (dp_dyld_image_added_callback cap s t p sl).dylibIndex = s.dylibIndex + 1 ∧
    (cap ≤ s.dylibIndex →
      (dp_dyld_image_added_callback cap s t p sl).preMainData.dylibCount
          = s.preMainData.dylibCount ∧
      (dp_dyld_image_added_callback cap s t p sl).preMainData.systemDylibCount
          = s.preMainData.systemDylibCount ∧
      (dp_dyld_image_added_callback cap s t p sl).preMainData.userDylibCount
          = s.preMainData.userDylibCount) ∧
    (s.dylibIndex < cap →
      (dp_dyld_image_added_callback cap s t p sl).preMainData.dylibCount
          = s.dylibIndex + 1 ∧
      (dp_dyld_image_added_callback cap s t p sl).preMainData.systemDylibCount +
        (dp_dyld_image_added_callback cap s t p sl).preMainData.userDylibCount
          = s.preMainData.systemDylibCount + s.preMainData.userDylibCount + 1) := by
  unfold dp_dyld_image_added_callback
  by_cases h0 : s.preMainData.timestamps.firstDyldCallbackMachTime = 0 <;>
    by_cases hix : cap ≤ s.dylibIndex <;>
      rcases p with _ | q <;>
        simp only [hEn, h0, hix, if_true, if_false, eq_self_iff_true, if_pos, if_neg,
          Bool.true_eq_false, not_false_eq_true, ite_true, ite_false] <;>
        simp [hix] <;>
        try omega
  all_goals
    cases hq : dp_is_system_library (some q) <;> simp [hq] <;> omega

/-- Every event other than `setDetail false` preserves `countersConsistent`. -/
theorem step_preserves_counters (cap : Nat) (s : MonitorState) (e : DPEvent)
    (hs : countersConsistent cap s) (he : e ≠ DPEvent.setDetail false) :
    countersConsistent cap (dp_step cap s e) := by
  obtain ⟨hsum, hcnt, hen⟩ := hs
  cases e with
  | load t p sl =>
    obtain ⟨hen', hidx', hover, hrec⟩ := callback_enabled_counters cap s t p sl hen
    unfold dp_step
    by_cases hix : cap ≤ s.dylibIndex
    · obtain ⟨hc, hsys, husr⟩ := hover hix
      refine ⟨?_, ?_, hen'⟩
      · rw [hc, hsys, husr]; exact hsum
      · rw [hc, hidx', hcnt]; omega
    · obtain ⟨hc, hsu⟩ := hrec (Nat.lt_of_not_le hix)
      refine ⟨?_, ?_, hen'⟩
      · rw [hc, hsu]; omega
      · rw [hc, hidx']; omega
  | setDetail b =>
    cases b with
    | false => exact absurd rfl he
    | true =>
      unfold dp_step DPPreMainSetDylibDetailEnabled countersConsistent
      simp [hsum, hcnt]
  | markMain t u m =>
    unfold dp_step DPPreMainMarkMainExecuted countersConsistent
    by_cases h : s.preMainData.mainExecutedMarked = true <;> simp [h, hsum, hcnt, hen]
  | markObjCStart t =>
    unfold dp_step DPPreMainMarkObjCLoadStart countersConsistent
    by_cases h : s.preMainData.timestamps.objcLoadStartMachTime = 0 <;>
      simp [h, hsum, hcnt, hen]
  | markObjCEnd t =>
    unfold dp_step DPPreMainMarkObjCLoadEnd countersConsistent
    by_cases h : s.preMainData.timestamps.objcLoadEndMachTime = 0 <;>
      simp [h, hsum, hcnt, hen]

/-- `countersConsistent` is preserved by any run avoiding `setDetail false`. -/
theorem run_preserves_counters (cap : Nat) (es : List DPEvent) (s : MonitorState)
    (hs : countersConsistent cap s) (he : ∀ e ∈ es, e ≠ DPEvent.setDetail false) :
    countersConsistent cap (dp_run cap s es) := by
  induction es generalizing s with
  | nil => simpa [dp_run] using hs
  | cons e rest ih =>
    have hstep : dp_run cap s (e :: rest) = dp_run cap (dp_step cap s e) rest := by
      simp [dp_run]
    rw [hstep]
    exact ih (dp_step cap s e)
      (step_preserves_counters cap s e hs (he e (List.mem_cons_self e rest)))
      (fun e' h' => he e' (List.mem_cons_of_mem e h'))

/-- A record written into a free ledger slot carries exactly the
`dp_is_system_library` classification of the resolved path. -/
theorem callback_stores_classification (cap : Nat) (s : MonitorState) (t : Nat)
    (p : Option (List Char)) (sl : Int)
    (hEn : s.preMainData.dylibDetailEnabled = true)
    (hIdx : s.dylibIndex < cap)
    (hLen : s.dylibLoadInfos.length = cap) :
    ((dp_dyld_image_added_callback cap s t p sl).dylibLoadInfos.get? s.dylibIndex).map
        (fun r => r.isSystemLibrary) = some (dp_is_system_library p) := by
  unfold dp_dyld_image_added_callback
  rcases p with _ | q <;>
    simp [hEn, Nat.not_le.mpr hIdx, List.get?_eq_getElem?,
      List.getElem?_set_self (by rw [hLen]; exact hIdx), dp_is_system_library]

/-- The monitor state after a load event, a disable, a load event while
disabled, a re-enable, and a final load event (capacity 512). -/
def c4State : MonitorState :=
  dp_runFromInit 512 1 1 10 0
    [DPEvent.load 20 none 0, DPEvent.setDetail false, DPEvent.load 30 none 0,
     DPEvent.setDetail true, DPEvent.load 40 none 0]

/-- C4 counterexample: delivering a load event while detail recording is
disabled and then re-enabling makes the next recorded event publish
`dylibCount = index + 1`, skipping the uncounted event: after
load, disable, load, enable, load the state has
`systemDylibCount + userDylibCount = 2` but `dylibCount = 3`. -/
theorem C4_counterexample :
    c4State.preMainData.systemDylibCount + c4State.preMainData.userDylibCount ≠
      c4State.preMainData.dylibCount := by
  decide

/-- C4 (amended): after every sequence of load events, `setDetail true`
toggles and marker calls from the initial state — i.e. provided no load
event is delivered during a disabled interval that is later re-enabled
(no `setDetail false` occurs) — the counters satisfy
`systemDylibCount + userDylibCount == dylibCount`; and a record stored for
a resolved path is classified `isSystemLibrary = dp_is_system_library`,
which is true exactly when the path starts with one of the five fixed
system prefixes, and false for an unresolvable (NULL) path. -/
theorem C4_counters_and_classification (cap numer denom c ps : Nat) :
    (∀ es : List DPEvent, (∀ e ∈ es, e ≠ DPEvent.setDetail false) →
      (dp_runFromInit cap numer denom c ps es).preMainData.systemDylibCount +
        (dp_runFromInit cap numer denom c ps es).preMainData.userDylibCount
        = (dp_runFromInit cap numer denom c ps es).preMainData.dylibCount) ∧
    (∀ (s : MonitorState) (t : Nat) (p : Option (List Char)) (sl : Int),
      s.preMainData.dylibDetailEnabled = true → s.dylibIndex < cap →
      s.dylibLoadInfos.length = cap →
      ((dp_dyld_image_added_callback cap s t p sl).dylibLoadInfos.get? s.dylibIndex).map
          (fun r => r.isSystemLibrary) = some (dp_is_system_library p)) ∧
    (∀ q : List Char, dp_is_system_library (some q) = true ↔
        ∃ pre ∈ systemPrefixes, q.take pre.length = pre) ∧
    dp_is_system_library none = false := by
  refine ⟨?_, ?_, ?_, rfl⟩
  · intro es he
    have hinit : countersConsistent cap (dp_premain_init cap numer denom c ps) := by
      unfold countersConsistent dp_premain_init zeroData
      simp
    exact (run_preserves_counters cap es (dp_premain_init cap numer denom c ps)
      hinit he).1.symm ▸ (run_preserves_counters cap es
        (dp_premain_init cap numer denom c ps) hinit he).1
  · exact fun s t p sl => callback_stores_classification cap s t p sl
  · intro q
    simp [dp_is_system_library, List.any_eq_true, beq_iff_eq]

/-- Witness for C4: one system-library load event from the initial state
yields consistent counters. -/
theorem C4_counters_witness :
    (dp_runFromInit 512 1 1 10 0
        [DPEvent.load 20 (some "/usr/lib/a.dylib".data) 0]).preMainData.systemDylibCount +
      (dp_runFromInit 512 1 1 10 0
        [DPEvent.load 20 (some "/usr/lib/a.dylib".data) 0]).preMainData.userDylibCount
      = (dp_runFromInit 512 1 1 10 0
        [DPEvent.load 20 (some "/usr/lib/a.dylib".data) 0]).preMainData.dylibCount :=
  (C4_counters_and_classification 512 1 1 10 0).1
    [DPEvent.load 20 (some "/usr/lib/a.dylib".data) 0] (by decide)

/-! ## Claim C1: duration decomposition identity -/

/-- `uint64_t` subtraction is plain subtraction when the operands are
ordered and in range. -/
theorem sub64_eq_of_le (a b : Nat) (hb : b ≤ a) (ha : a < u64Mod) :
    sub64 a b = a - b := by
  unfold sub64 u64Mod
  unfold u64Mod at ha
  omega

/-- When entry is marked and the constructor/first/last timestamps are all
nonzero, the calculator writes all four tick-derived phase durations. -/
theorem calculate_main_fields (d : DPPreMainData) (nowU nowM : Nat)
    (hmk : d.mainExecutedMarked = true)
    (hm0 : d.timestamps.mainExecutedMachTime ≠ 0)
    (hc : 0 < d.timestamps.constructorMachTime)
    (hf : 0 < d.timestamps.firstDyldCallbackMachTime)
    (hl : 0 < d.timestamps.lastDyldCallbackMachTime) :
    (dp_calculate_durations d nowU nowM).totalPreMainMs
        = DPMachTimeToMillis d
            (sub64 d.timestamps.mainExecutedMachTime d.timestamps.constructorMachTime) ∧
    (dp_calculate_durations d nowU nowM).dylibLoadingMs
        = DPMachTimeToMillis d
            (sub64 d.timestamps.lastDyldCallbackMachTime d.timestamps.firstDyldCallbackMachTime) ∧
    (dp_calculate_durations d nowU nowM).staticInitializerMs
        = DPMachTimeToMillis d
            (sub64 d.timestamps.firstDyldCallbackMachTime d.timestamps.constructorMachTime) ∧
    (dp_calculate_durations d nowU nowM).postDyldToMainMs
        = DPMachTimeToMillis d
            (sub64 d.timestamps.mainExecutedMachTime d.timestamps.lastDyldCallbackMachTime) := by
  unfold dp_calculate_durations
  simp only [hmk, hm0, hc, hf, hl, Bool.true_eq_false, false_or, if_neg, if_pos,
    and_self, true_and, and_true, if_false, ite_false, ite_true, not_false_eq_true]
  split_ifs <;> simp

/-- Tick-to-millis is additive on a three-part split whenever the 64-bit
product does not wrap and the denominator divides each scaled part. -/
theorem millis_add_decompose (d : DPPreMainData) (a b c : Nat)
    (hden : 0 < d.timebaseDenom)
    (hw : (a + b + c) * d.timebaseNumer < u64Mod)
    (hda : d.timebaseDenom ∣ a * d.timebaseNumer)
    (hdb : d.timebaseDenom ∣ b * d.timebaseNumer)
    (hdc : d.timebaseDenom ∣ c * d.timebaseNumer) :
    DPMachTimeToMillis d (a + b + c) =
      DPMachTimeToMillis d a + DPMachTimeToMillis d b + DPMachTimeToMillis d c := by
  obtain ⟨k1, hk1⟩ := hda
  obtain ⟨k2, hk2⟩ := hdb
  obtain ⟨k3, hk3⟩ := hdc
  have hendA : a * d.timebaseNumer ≤ (a + b + c) * d.timebaseNumer :=
    Nat.mul_le_mul_right _ (by omega)
  have hendB : b * d.timebaseNumer ≤ (a + b + c) * d.timebaseNumer :=
    Nat.mul_le_mul_right _ (by omega)
  have hendC : c * d.timebaseNumer ≤ (a + b + c) * d.timebaseNumer :=
    Nat.mul_le_mul_right _ (by omega)
  have hsum : (a + b + c) * d.timebaseNumer = d.timebaseDenom * (k1 + k2 + k3) := by
    rw [add_mul, add_mul, hk1, hk2, hk3, Nat.mul_add, Nat.mul_add]
  unfold DPMachTimeToMillis DPMachTimeToNanos mul64
  rw [Nat.mod_eq_of_lt (lt_of_le_of_lt hendA hw),
    Nat.mod_eq_of_lt (lt_of_le_of_lt hendB hw),
    Nat.mod_eq_of_lt (lt_of_le_of_lt hendC hw),
    Nat.mod_eq_of_lt hw, hsum, hk1, hk2, hk3,
    Nat.mul_div_cancel_left _ hden, Nat.mul_div_cancel_left _ hden,
    Nat.mul_div_cancel_left _ hden, Nat.mul_div_cancel_left _ hden]
  push_cast
  ring

/-- C1 (amended): for timestamps that are all nonzero, monotonically
ordered and within `uint64_t` range, and an initialized timebase whose
denominator exactly divides the numerator-scaled length of each of the
three sub-intervals (with the total scaled interval below 2^64),
`dp_calculate_durations` satisfies
`totalPreMainMs = dylibLoadingMs + staticInitializerMs + postDyldToMainMs`
exactly. Without the divisibility condition the truncating integer
division in `DPMachTimeToNanos` breaks the identity (see the
counterexample with numerator 1, denominator 3). -/
theorem C1_duration_decomposition (d : DPPreMainData) (nowU nowM : Nat)
    (hmk : d.mainExecutedMarked = true)
    (hc : 0 < d.timestamps.constructorMachTime)
    (h1 : d.timestamps.constructorMachTime ≤ d.timestamps.firstDyldCallbackMachTime)
    (h2 : d.timestamps.firstDyldCallbackMachTime ≤ d.timestamps.lastDyldCallbackMachTime)
    (h3 : d.timestamps.lastDyldCallbackMachTime ≤ d.timestamps.mainExecutedMachTime)
    (hm : d.timestamps.mainExecutedMachTime < u64Mod)
    (hden : 0 < d.timebaseDenom)
    (hw : (d.timestamps.mainExecutedMachTime - d.timestamps.constructorMachTime)
            * d.timebaseNumer < u64Mod)
    (hd1 : d.timebaseDenom ∣
      (d.timestamps.firstDyldCallbackMachTime - d.timestamps.constructorMachTime)
        * d.timebaseNumer)
    (hd2 : d.timebaseDenom ∣
      (d.timestamps.lastDyldCallbackMachTime - d.timestamps.firstDyldCallbackMachTime)
        * d.timebaseNumer)
    (hd3 : d.timebaseDenom ∣
      (d.timestamps.mainExecutedMachTime - d.timestamps.lastDyldCallbackMachTime)
        * d.timebaseNumer) :
    (dp_calculate_durations d nowU nowM).totalPreMainMs =
      (dp_calculate_durations d nowU nowM).dylibLoadingMs +
      (dp_calculate_durations d nowU nowM).staticInitializerMs +
      (dp_calculate_durations d nowU nowM).postDyldToMainMs := by
  have hf : 0 < d.timestamps.firstDyldCallbackMachTime := lt_of_lt_of_le hc h1
  have hl : 0 < d.timestamps.lastDyldCallbackMachTime := lt_of_lt_of_le hf h2
  have hm0 : d.timestamps.mainExecutedMachTime ≠ 0 := by omega
  obtain ⟨e1, e2, e3, e4⟩ := calculate_main_fields d nowU nowM hmk hm0 hc hf hl
  rw [e1, e2, e3, e4,
    sub64_eq_of_le _ _ (le_trans h1 (le_trans h2 h3)) hm,
    sub64_eq_of_le _ _ h2 (lt_of_le_of_lt h3 hm),
    sub64_eq_of_le _ _ h1 (lt_of_le_of_lt (le_trans h2 h3) hm),
    sub64_eq_of_le _ _ h3 hm]
  have hdecomp : d.timestamps.mainExecutedMachTime - d.timestamps.constructorMachTime
      = (d.timestamps.lastDyldCallbackMachTime - d.timestamps.firstDyldCallbackMachTime)
        + (d.timestamps.firstDyldCallbackMachTime - d.timestamps.constructorMachTime)
        + (d.timestamps.mainExecutedMachTime - d.timestamps.lastDyldCallbackMachTime) := by
    omega
  rw [hdecomp]
  exact millis_add_decompose d _ _ _ hden (by rw [← hdecomp]; exact hw) hd2 hd1 hd3

/-- A marked data record with timebase 1/3 and timestamps 1, 2, 3, 5: the
tick intervals 1, 1 and 2 all truncate to 0 nanoseconds while the total
interval 4 yields 1 nanosecond. -/
def c1Data : DPPreMainData :=
  { zeroData with
    mainExecutedMarked := true
    timebaseNumer := 1, timebaseDenom := 3
    timestamps := { zeroTimestamps with
      constructorMachTime := 1, firstDyldCallbackMachTime := 2
      lastDyldCallbackMachTime := 3, mainExecutedMachTime := 5 } }

/-- C1 counterexample: with the nonzero, monotonically ordered timestamps
1 ≤ 2 ≤ 3 ≤ 5 and the valid timebase numerator 1 / denominator 3, the
computed durations satisfy `totalPreMainMs ≠ dylibLoadingMs +
staticInitializerMs + postDyldToMainMs` (1/1000000 on the left, 0 on the
right): integer truncation in the tick→nanos conversion breaks the
claimed identity, so it does not hold for every denominator > 0. -/
theorem C1_counterexample :
    c1Data.mainExecutedMarked = true ∧
    0 < c1Data.timestamps.constructorMachTime ∧
    c1Data.timestamps.constructorMachTime ≤ c1Data.timestamps.firstDyldCallbackMachTime ∧
    c1Data.timestamps.firstDyldCallbackMachTime ≤ c1Data.timestamps.lastDyldCallbackMachTime ∧
    c1Data.timestamps.lastDyldCallbackMachTime ≤ c1Data.timestamps.mainExecutedMachTime ∧
    0 < c1Data.timebaseDenom ∧
    (dp_calculate_durations c1Data 0 0).totalPreMainMs ≠
      (dp_calculate_durations c1Data 0 0).dylibLoadingMs +
      (dp_calculate_durations c1Data 0 0).staticInitializerMs +
      (dp_calculate_durations c1Data 0 0).postDyldToMainMs := by
  refine ⟨rfl, by decide, by decide, by decide, by decide, by decide, ?_⟩
  norm_num [dp_calculate_durations, c1Data, zeroData, zeroTimestamps, zeroDurations,
    DPMachTimeToMillis, DPMachTimeToNanos, mul64, sub64, u64Mod]

/-- The spec's worked scenario: ticks 1000/1200/5000/6000 with a 1:1
timebase. -/
def c1SpecData : DPPreMainData :=
  { zeroData with
    mainExecutedMarked := true
    timebaseNumer := 1, timebaseDenom := 1
    timestamps := { zeroTimestamps with
      constructorMachTime := 1000, firstDyldCallbackMachTime := 1200
      lastDyldCallbackMachTime := 5000, mainExecutedMachTime := 6000 } }

/-- Witness for C1: the amended identity holds on the spec's 1:1-timebase
scenario. -/
theorem C1_duration_decomposition_witness :
    (dp_calculate_durations c1SpecData 0 0).totalPreMainMs =
      (dp_calculate_durations c1SpecData 0 0).dylibLoadingMs +
      (dp_calculate_durations c1SpecData 0 0).staticInitializerMs +
      (dp_calculate_durations c1SpecData 0 0).postDyldToMainMs :=
  C1_duration_decomposition c1SpecData 0 0 rfl (by decide) (by decide) (by decide)
    (by decide) (by decide) (by decide) (by decide) (by decide) (by decide) (by decide)

/-! ## Claim C7: missing inputs leave durations at zero -/

/-- C7 (amended): starting from the default all-zero durations, each of the
five tick-derived duration fields whose required input timestamps include a
zero value is left at its default 0, and when entry is unmarked (or its
timestamp zero) all six stay 0; but `estimatedKernelToConstructorMs` is
guarded only on `processStartTimeUnixMicros` — it is left at 0 when the
epoch is 0, yet is computed even when `constructorMachTime` (an input of
its formula) is unset (see the counterexample). -/
theorem C7_missing_inputs_left_zero (d : DPPreMainData) (nowU nowM : Nat)
    (hz : d.durations = zeroDurations) :
    ((d.mainExecutedMarked = false ∨ d.timestamps.mainExecutedMachTime = 0) →
        dp_calculate_durations d nowU nowM = zeroDurations) ∧
    (d.timestamps.constructorMachTime = 0 →
        (dp_calculate_durations d nowU nowM).totalPreMainMs = 0) ∧
    ((d.timestamps.firstDyldCallbackMachTime = 0 ∨
        d.timestamps.lastDyldCallbackMachTime = 0) →
        (dp_calculate_durations d nowU nowM).dylibLoadingMs = 0) ∧
    ((d.timestamps.objcLoadStartMachTime = 0 ∨ d.timestamps.objcLoadEndMachTime = 0) →
        (dp_calculate_durations d nowU nowM).objcLoadMs = 0) ∧
    ((d.timestamps.constructorMachTime = 0 ∨
        d.timestamps.firstDyldCallbackMachTime = 0) →
        (dp_calculate_durations d nowU nowM).staticInitializerMs = 0) ∧
    (d.timestamps.lastDyldCallbackMachTime = 0 →
        (dp_calculate_durations d nowU nowM).postDyldToMainMs = 0) ∧
    (d.timestamps.processStartTimeUnixMicros = 0 →
        (dp_calculate_durations d nowU nowM).estimatedKernelToConstructorMs = 0) := by
  by_cases hg : d.mainExecutedMarked = false ∨ d.timestamps.mainExecutedMachTime = 0
  · refine ⟨fun _ => ?_, fun _ => ?_, fun _ => ?_, fun _ => ?_, fun _ => ?_,
      fun _ => ?_, fun _ => ?_⟩ <;>
      (unfold dp_calculate_durations; simp [hg, hz, zeroDurations])
  · refine ⟨fun h => absurd h hg, ?_, ?_, ?_, ?_, ?_, ?_⟩
    · intro h
      unfold dp_calculate_durations
      simp [hg, h, apply_ite DPPreMainDurations.totalPreMainMs, ite_self, hz, zeroDurations]
    · intro h
      unfold dp_calculate_durations
      rcases h with h | h <;>
        simp [hg, h, apply_ite DPPreMainDurations.dylibLoadingMs, ite_self, hz, zeroDurations]
    · intro h
      unfold dp_calculate_durations
      rcases h with h | h <;>
        simp [hg, h, apply_ite DPPreMainDurations.objcLoadMs, ite_self, hz, zeroDurations]
    · intro h
      unfold dp_calculate_durations
      rcases h with h | h <;>
        simp [hg, h, apply_ite DPPreMainDurations.staticInitializerMs, ite_self, hz,
          zeroDurations]
    · intro h
      unfold dp_calculate_durations
      simp [hg, h, apply_ite DPPreMainDurations.postDyldToMainMs, ite_self, hz, zeroDurations]
    · intro h
      unfold dp_calculate_durations
      simp [hg, h, apply_ite DPPreMainDurations.estimatedKernelToConstructorMs, ite_self,
        hz, zeroDurations]

/-- A marked snapshot whose constructor timestamp is unset (0) but whose
process epoch is known: the kernel-estimate formula still runs. -/
def c7Data : DPPreMainData :=
  { zeroData with
    mainExecutedMarked := true
    timebaseNumer := 1, timebaseDenom := 1
    timestamps := { zeroTimestamps with
      processStartTimeUnixMicros := 1, mainExecutedMachTime := 10 } }

/-- C7 counterexample: with `constructorMachTime = 0` (unset) but a known
process epoch, `dp_calculate_durations` still writes a nonzero
`estimatedKernelToConstructorMs` (1000 here, from a wall-clock "now" of
1000001 µs and a monotonic "now" of 0) — a duration field is produced even
though one of its required input timestamps is zero. -/
theorem C7_counterexample :
    c7Data.timestamps.constructorMachTime = 0 ∧
    (dp_calculate_durations c7Data 1000001 0).estimatedKernelToConstructorMs ≠ 0 := by
  constructor
  · decide
  · norm_num [dp_calculate_durations, c7Data, zeroData, zeroTimestamps, zeroDurations,
      DPMachTimeToMillis, DPMachTimeToNanos, mul64, sub64, u64Mod]

/-- Witness for C7: on the all-zero snapshot (entry unmarked) the
calculator leaves every duration at zero. -/
theorem C7_missing_inputs_left_zero_witness :
    dp_calculate_durations zeroData 0 0 = zeroDurations :=
  (C7_missing_inputs_left_zero zeroData 0 0 rfl).1 (Or.inl rfl)

/-! ## Claim C8: top-N slowest query -/

/-- C8: `DPPreMainGetSlowestDylibs` with a non-null buffer and a positive
request returns exactly `min(n, T)` records (T the recorded count) sorted
descending by `loadDurationNanos` — any two returned records at positions
i < j satisfy `records[i].loadDurationNanos ≥ records[j].loadDurationNanos`
— while a null buffer or a zero request returns 0 records. -/
theorem C8_slowest_sorted (cap : Nat) (s : MonitorState) (bufferNonNull : Bool) (n : Nat)
    (hLen : s.dylibLoadInfos.length = cap)
    (hCnt : s.preMainData.dylibCount ≤ cap) :
    ((bufferNonNull = false ∨ n = 0) →
        DPPreMainGetSlowestDylibs cap s bufferNonNull n = []) ∧
    (bufferNonNull = true → 0 < n →
      (DPPreMainGetSlowestDylibs cap s bufferNonNull n).length
          = min n s.preMainData.dylibCount ∧
      ∀ (i j : Fin (DPPreMainGetSlowestDylibs cap s bufferNonNull n).length),
        i < j →
        ((DPPreMainGetSlowestDylibs cap s bufferNonNull n).get j).loadDurationNanos ≤
          ((DPPreMainGetSlowestDylibs cap s bufferNonNull n).get i).loadDurationNanos) := by
  constructor
  · intro hb
    unfold DPPreMainGetSlowestDylibs
    rw [if_pos hb]
  · intro hbt hn
    have hcond : ¬(bufferNonNull = false ∨ n = 0) := by
      simp [hbt]
      omega
    have heq : DPPreMainGetSlowestDylibs cap s bufferNonNull n =
        (List.insertionSort dp_duration_ge
            (s.dylibLoadInfos.take s.preMainData.dylibCount)).take
          (if n < s.preMainData.dylibCount then n else s.preMainData.dylibCount) := by
      unfold DPPreMainGetSlowestDylibs
      rw [if_neg hcond]
      dsimp only
      rw [if_neg (Nat.not_lt.mpr hCnt)]
    have hsorted : List.Sorted dp_duration_ge
        (List.insertionSort dp_duration_ge
          (s.dylibLoadInfos.take s.preMainData.dylibCount)) :=
      List.sorted_insertionSort dp_duration_ge _
    have hps : List.Pairwise dp_duration_ge
        (DPPreMainGetSlowestDylibs cap s bufferNonNull n) := by
      rw [heq]
      exact List.Pairwise.sublist (List.take_sublist _ _) hsorted
    refine ⟨?_, ?_⟩
    · rw [heq, List.length_take, List.length_insertionSort, List.length_take, hLen,
        Nat.min_eq_left hCnt]
      split_ifs <;> omega
    · intro i j hij
      exact List.pairwise_iff_get.mp hps i j hij

/-- A two-record ledger state (durations 1 and 5 ns) at capacity 2. -/
def c8State : MonitorState :=
  { preMainData := { zeroData with dylibCount := 2 }
    dylibLoadInfos :=
      [{ zeroDylibInfo with loadDurationNanos := 1 },
       { zeroDylibInfo with loadDurationNanos := 5 }]
    dylibIndex := 2 }

/-- Witness for C8: requesting the single slowest record of a two-record
ledger returns exactly one record. -/
theorem C8_slowest_sorted_witness :
    (DPPreMainGetSlowestDylibs 2 c8State true 1).length
      = min 1 c8State.preMainData.dylibCount :=
  ((C8_slowest_sorted 2 c8State true 1 rfl (by decide)).2 rfl (by decide)).1

/-! ## Claim C9: reset restores the initial state -/

/-- C9: after `DPPreMainReset` from any state, every stored field is back
at its all-zero initial value, detail recording is re-enabled, the
timebase is re-derived from the OS, the cursor is 0, queries return the
empty initial state (`getAll` yields no records, `getDylibInfo 0` is
NULL), and the next load event is recorded at slot index 0 with
`dylibCount = 1`. -/
theorem C9_reset_initial_state (cap numer denom : Nat) (s : MonitorState)
    (bufferNonNull : Bool) (bufferSize t : Nat) (p : Option (List Char)) (sl : Int)
    (hcap : 0 < cap) :
    (DPPreMainReset cap numer denom s).preMainData.timestamps = zeroTimestamps ∧
    (DPPreMainReset cap numer denom s).preMainData.durations = zeroDurations ∧
    (DPPreMainReset cap numer denom s).preMainData.dylibCount = 0 ∧
    (DPPreMainReset cap numer denom s).preMainData.systemDylibCount = 0 ∧
    (DPPreMainReset cap numer denom s).preMainData.userDylibCount = 0 ∧
    (DPPreMainReset cap numer denom s).preMainData.mainExecutedMarked = false ∧
    (DPPreMainReset cap numer denom s).preMainData.dylibDetailEnabled = true ∧
    (DPPreMainReset cap numer denom s).preMainData.timebaseNumer = numer ∧
    (DPPreMainReset cap numer denom s).preMainData.timebaseDenom = denom ∧
    (DPPreMainReset cap numer denom s).dylibLoadInfos = List.replicate cap zeroDylibInfo ∧
    (DPPreMainReset cap numer denom s).dylibIndex = 0 ∧
    DPPreMainGetAllDylibs cap (DPPreMainReset cap numer denom s) bufferNonNull bufferSize
        = [] ∧
    DPPreMainGetDylibInfo cap (DPPreMainReset cap numer denom s) 0 = none ∧
    (dp_dyld_image_added_callback cap (DPPreMainReset cap numer denom s) t p sl).dylibIndex
        = 1 ∧
    (dp_dyld_image_added_callback cap
        (DPPreMainReset cap numer denom s) t p sl).preMainData.dylibCount = 1 ∧
    ((dp_dyld_image_added_callback cap
        (DPPreMainReset cap numer denom s) t p sl).dylibLoadInfos.get? 0).map
        (fun r => r.loadMachTime) = some t := by
  refine ⟨rfl, rfl, rfl, rfl, rfl, rfl, rfl, rfl, rfl, rfl, rfl, ?_, ?_, ?_, ?_, ?_⟩
  · unfold DPPreMainGetAllDylibs DPPreMainReset zeroData
    split_ifs <;> simp
  · unfold DPPreMainGetDylibInfo DPPreMainReset zeroData
    simp
  · unfold dp_dyld_image_added_callback DPPreMainReset zeroData zeroTimestamps
    simp [Nat.not_le.mpr hcap]
  · unfold dp_dyld_image_added_callback DPPreMainReset zeroData zeroTimestamps
    simp [Nat.not_le.mpr hcap]
  · unfold dp_dyld_image_added_callback DPPreMainReset zeroData zeroTimestamps
    simp [Nat.not_le.mpr hcap, List.get?_eq_getElem?]
    rw [List.getElem?_set_self (by simp [hcap])]
    simp

/-- Witness for C9: resetting an arbitrary dirty state (here `c2State`)
yields 0 recorded dylibs and an empty `getAll` at capacity 2. -/
theorem C9_reset_initial_state_witness :
    DPPreMainGetAllDylibs 2 (DPPreMainReset 2 1 1 c2State) true 8 = [] :=
  (C9_reset_initial_state 2 1 1 c2State true 8 99 none 0 (by decide)).2.2.2.2.2.2.2.2.2.2.2.1

/-! ## Claim C10: stored name is the truncated base filename -/

/-- `takeWhile` keeps exactly a prefix on which the predicate holds when
the next element fails it. -/
theorem takeWhile_until_stop (p : Char → Bool) (l1 l2 : List Char) (x : Char)
    (h1 : ∀ a ∈ l1, p a = true) (hx : p x = false) :
    (l1 ++ x :: l2).takeWhile p = l1 := by
  induction l1 with
  | nil => simp [List.takeWhile_cons, hx]
  | cons a as ih =>
    have ha : p a = true := h1 a (List.mem_cons_self a as)
    simp only [List.cons_append, List.takeWhile_cons, ha, if_true]
    rw [ih (fun b hb => h1 b (List.mem_cons_of_mem a hb))]

/-- `dp_extract_filename` returns exactly the substring after the last
slash of the path. -/
theorem extract_filename_after_last_slash (pre suf : List Char)
    (h : suf.contains '/' = false) :
    dp_extract_filename (some (pre ++ '/' :: suf)) = suf := by
  unfold dp_extract_filename
  dsimp only
  have hc : (pre ++ '/' :: suf).contains '/' = true := by simp
  rw [if_pos hc, List.reverse_append, List.reverse_cons, List.append_assoc,
    List.singleton_append]
  rw [takeWhile_until_stop _ suf.reverse (pre.reverse) '/' ?h1 ?hx]
  · exact List.reverse_reverse suf
  case h1 =>
    intro a ha
    have : a ∈ suf := List.mem_reverse.mp ha
    simp only [decide_eq_true_eq]
    intro hEq
    rw [hEq] at this
    simp [List.contains, List.elem_eq_mem, this] at h
  case hx => simp

/-- The dyld callback either leaves the ledger untouched or writes a single
slot whose name fits in `DP_MAX_DYLIB_NAME_LENGTH - 1` characters. -/
theorem callback_ledger_shape (cap : Nat) (s : MonitorState) (t : Nat)
    (p : Option (List Char)) (sl : Int) :
    (dp_dyld_image_added_callback cap s t p sl).dylibLoadInfos = s.dylibLoadInfos ∨
    ∃ info : DPDylibLoadInfo, info.name.length ≤ DP_MAX_DYLIB_NAME_LENGTH - 1 ∧
      (dp_dyld_image_added_callback cap s t p sl).dylibLoadInfos
        = s.dylibLoadInfos.set s.dylibIndex info := by
  unfold dp_dyld_image_added_callback
  by_cases hen : s.preMainData.dylibDetailEnabled = false <;>
    by_cases h0 : s.preMainData.timestamps.firstDyldCallbackMachTime = 0 <;>
      by_cases hix : cap ≤ s.dylibIndex <;>
        simp [hen, h0, hix]
  all_goals
    refine Or.inr ⟨_, ?_, rfl⟩
  all_goals
    rcases p with _ | q <;> simp [List.length_take]

/-- Every record of the ledger has a name of at most 255 characters. -/
def namesBounded (s : MonitorState) : Prop :=
  ∀ r ∈ s.dylibLoadInfos, r.name.length ≤ DP_MAX_DYLIB_NAME_LENGTH - 1

/-- Every event preserves `namesBounded`. -/
theorem step_preserves_namesBounded (cap : Nat) (s : MonitorState) (e : DPEvent)
    (hs : namesBounded s) : namesBounded (dp_step cap s e) := by
  cases e with
  | load t p sl =>
    rcases callback_ledger_shape cap s t p sl with h | ⟨info, hinfo, h⟩
    · unfold namesBounded
      rw [dp_step, h]
      exact hs
    · unfold namesBounded
      rw [dp_step, h]
      intro r hr
      rcases List.mem_or_eq_of_mem_set hr with hmem | hEq
      · exact hs r hmem
      · rw [hEq]; exact hinfo
  | setDetail b =>
    unfold namesBounded dp_step DPPreMainSetDylibDetailEnabled
    simpa using hs
  | markMain t u m =>
    unfold namesBounded dp_step DPPreMainMarkMainExecuted
    by_cases h : s.preMainData.mainExecutedMarked = true <;> simp [h] <;> exact hs
  | markObjCStart t =>
    unfold namesBounded dp_step DPPreMainMarkObjCLoadStart
    by_cases h : s.preMainData.timestamps.objcLoadStartMachTime = 0 <;>
      simp [h] <;> exact hs
  | markObjCEnd t =>
    unfold namesBounded dp_step DPPreMainMarkObjCLoadEnd
    by_cases h : s.preMainData.timestamps.objcLoadEndMachTime = 0 <;>
      simp [h] <;> exact hs

/-- Any run preserves `namesBounded`. -/
theorem run_preserves_namesBounded (cap : Nat) (es : List DPEvent) (s : MonitorState)
    (hs : namesBounded s) : namesBounded (dp_run cap s es) := by
  induction es generalizing s with
  | nil => simpa [dp_run] using hs
  | cons e rest ih =>
    have hstep : dp_run cap s (e :: rest) = dp_run cap (dp_step cap s e) rest := by
      simp [dp_run]
    rw [hstep]
    exact ih (dp_step cap s e) (step_preserves_namesBounded cap s e hs)

/-- C10: a record stored for a resolved path carries exactly the first
`DP_MAX_DYLIB_NAME_LENGTH - 1 = 255` characters of the base filename —
`dp_extract_filename` being the substring after the last `'/'`, or the
whole path when it has no slash — and every ledger record of any reachable
state has a name of at most 255 characters, hence NUL-terminated within
its 256-byte buffer (longer filenames are silently truncated by the
`strncpy` bound). -/
theorem C10_name_truncation (cap : Nat) :
    (∀ (s : MonitorState) (t : Nat) (q : List Char) (sl : Int),
      s.preMainData.dylibDetailEnabled = true → s.dylibIndex < cap →
      s.dylibLoadInfos.length = cap →
      ((dp_dyld_image_added_callback cap s t (some q) sl).dylibLoadInfos.get?
          s.dylibIndex).map (fun r => r.name)
        = some ((dp_extract_filename (some q)).take (DP_MAX_DYLIB_NAME_LENGTH - 1))) ∧
    (∀ (pre suf : List Char), suf.contains '/' = false →
      dp_extract_filename (some (pre ++ '/' :: suf)) = suf) ∧
    (∀ q : List Char, q.contains '/' = false → dp_extract_filename (some q) = q) ∧
    (∀ (numer denom c ps : Nat) (es : List DPEvent),
      ∀ r ∈ (dp_runFromInit cap numer denom c ps es).dylibLoadInfos,
        r.name.length ≤ DP_MAX_DYLIB_NAME_LENGTH - 1) := by
  refine ⟨?_, extract_filename_after_last_slash, ?_, ?_⟩
  · intro s t q sl hEn hIdx hLen
    unfold dp_dyld_image_added_callback
    simp [hEn, Nat.not_le.mpr hIdx, List.get?_eq_getElem?]
    rw [List.getElem?_set_self (by rw [hLen]; exact hIdx)]
    simp
  · intro q hq
    unfold dp_extract_filename
    dsimp only
    rw [if_neg (fun hcontra => Bool.false_ne_true (hq ▸ hcontra))]
  · intro numer denom c ps es
    refine run_preserves_namesBounded cap es (dp_premain_init cap numer denom c ps) ?_
    unfold namesBounded dp_premain_init
    intro r hr
    have := List.eq_of_mem_replicate hr
    rw [this]
    simp [zeroDylibInfo]

/-- Witness for C10: recording `/usr/lib/libX.dylib` from the fresh state
stores the name `libX.dylib` (truncated to at most 255 characters). -/
theorem C10_name_truncation_witness :
    ((dp_dyld_image_added_callback 2 (dp_premain_init 2 1 1 10 0) 20
        (some "/usr/lib/libX.dylib".data) 0).dylibLoadInfos.get?
        (dp_premain_init 2 1 1 10 0).dylibIndex).map (fun r => r.name)
      = some ((dp_extract_filename (some "/usr/lib/libX.dylib".data)).take
          (DP_MAX_DYLIB_NAME_LENGTH - 1)) :=
  (C10_name_truncation 2).1 (dp_premain_init 2 1 1 10 0) 20
    "/usr/lib/libX.dylib".data 0 rfl (by decide) (by decide)
